import Mathlib

/-!
Verification of the `catalog/models.py` data-model layer of the locallibrary
application, as a shallow embedding in Lean 4.

The source declares five record types (Genre, Book, BookInstance, Author,
Language) on top of a web framework's ORM.  We embed:

  * the record shapes, with machine-generated primary keys modelled as `Nat`
    (Book, Author) or the string form of the generated UUID (BookInstance),
    foreign keys as `Option` of the referenced key, and calendar dates
    abstracted to their chronological ordinal (`Nat`), which is all the
    ordering claims need;
  * the framework's CharField validation (blank / choices / max_length), which
    is the only constraint enforcement the source declares;
  * Python's `str.format` for the positional fields the source uses, so that
    the `__str__` methods are embedded as written rather than paraphrased;
  * the declarative pieces the framework consumes: the default ordering
    `ordering = ["due_back"]`, the field default `default='m'`, the
    `on_delete=SET_NULL` cascade, and URL reversal by identifier substitution.
-/

namespace Catalog

/-- Python `str.format` restricted to single-digit positional fields
(`{0}`, `{1}`, ...), the only form the source uses.  Working over the
character list of the format string; a placeholder `{d}` is replaced by the
argument at index `d` (out-of-range indices yield the empty string; the
source never produces them). -/
def formatCore (args : List String) : List Char → List Char
  | [] => []
  | '{' :: c :: '}' :: rest =>
      if c.isDigit then (args.getD (c.toNat - 48) "").data ++ formatCore args rest
      else '{' :: formatCore args (c :: '}' :: rest)
  | c :: rest => c :: formatCore args rest

/-- Python `'fmt'.format(args...)` for the format strings of the source. -/
def pyFormat (fmt : String) (args : List String) : String :=
  ⟨formatCore args fmt.data⟩

/-- Validation of one CharField value, following the framework's field
validation: an empty value is allowed exactly when the field declares
`blank=True`; a non-empty value must be one of the declared choice keys (when
the field declares `choices`) and must satisfy the max-length validator. -/
def charFieldValid (maxLength : Nat) (blank : Bool)
    (choices : Option (List (String × String))) (value : String) : Bool :=
  if value = "" then blank
  else
    (match choices with
     | none => true
     | some cs => cs.any (fun kv => kv.1 == value))
    && decide (value.length ≤ maxLength)

/-- Genre: `name = models.CharField(max_length=200, ...)`. -/
structure Genre where
  id : Nat
  name : String

/-- `Genre.__str__`: `return self.name`. -/
def Genre.str (g : Genre) : String := g.name

/-- A Genre name passes field validation: `CharField(max_length=200)`,
`blank` left at its default `False`. -/
def genreNameValid (s : String) : Bool := charFieldValid 200 false none s

/-- Book: title, author (FK to Author, `null=True`), summary, isbn
(`CharField('ISBN', max_length=13, ...)`), genre (many-to-many). -/
structure Book where
  id : Nat
  title : String
  author : Option Nat
  summary : String
  isbn : String
  genre : List Nat

/-- `Book.__str__`: `return self.title`. -/
def Book.str (b : Book) : String := b.title

/-- A Book isbn passes field validation: `CharField(max_length=13)`,
`blank` left at its default `False`. -/
def isbnValid (s : String) : Bool := charFieldValid 13 false none s

/-- `LOAN_STATUS`: the (key, display) pairs declared on BookInstance. -/
def LOAN_STATUS : List (String × String) :=
  [("m", "Maintenance"), ("o", "On loan"), ("a", "Available"), ("r", "Reserved")]

/-- BookInstance: id (UUID primary key, kept in its string form), book
(FK to Book, `null=True`), imprint, due_back (`null=True`, date kept as its
chronological ordinal), status. -/
structure BookInstance where
  id : String
  book : Option Nat
  imprint : String
  due_back : Option Nat
  status : String

/-- A BookInstance status passes field validation:
`CharField(max_length=1, choices=LOAN_STATUS, blank=True, default='m')`. -/
def statusValid (s : String) : Bool := charFieldValid 1 true (some LOAN_STATUS) s

/-- A BookInstance row passes field validation: imprint is a plain
`CharField(max_length=200)`, status as above; id, book and due_back carry no
declared validators beyond nullability (book and due_back are nullable). -/
def BookInstance.fieldsValid (bi : BookInstance) : Bool :=
  charFieldValid 200 false none bi.imprint && statusValid bi.status

/-- `BookInstance.__str__`: `return '{0} ({1})'.format(self.id, self.book.title)`.
`self.book` resolves the foreign key through `resolve`; when the stored key is
NULL the attribute is `None` and `None.title` raises, so the operation is
undefined — embedded as `none`. -/
def BookInstance.strRepr (resolve : Nat → Option Book) (bi : BookInstance) :
    Option String :=
  match bi.book.bind resolve with
  | none => none
  | some b => some (pyFormat "{0} ({1})" [bi.id, b.title])

/-- Creation of a BookInstance row: a field not supplied takes the default
declared on the model; `status` declares `default='m'`. -/
def BookInstance.create (id : String) (book : Option Nat) (imprint : String)
    (due_back : Option Nat) (status : Option String) : BookInstance :=
  { id := id, book := book, imprint := imprint, due_back := due_back,
    status := status.getD "m" }

/-- Author: first_name, last_name (CharField max_length=100), optional
birth/death dates. -/
structure Author where
  id : Nat
  first_name : String
  last_name : String
  date_of_birth : Option Nat
  date_of_death : Option Nat

/-- `Author.__str__`: `return '{0}, {1}'.format(self.last_name, self.first_name)`. -/
def Author.str (a : Author) : String :=
  pyFormat "{0}, {1}" [a.last_name, a.first_name]

/-- Language: `name = models.CharField(max_length=200, ...)`. -/
structure Language where
  id : Nat
  name : String

/-- `Language.__str__`: `return self.name`. -/
def Language.str (l : Language) : String := l.name

/-! ### Default ordering of BookInstance

`class Meta: ordering = ["due_back"]` — the framework sorts every unqualified
query result ascending on `due_back`.  `due_back` is nullable; the datastore
default places NULLs before every date (ascending NULLs-first). -/

/-- The ascending NULLs-first order on the nullable `due_back` column. -/
def dueBackLE : Option Nat → Option Nat → Bool
  | none, _ => true
  | some _, none => false
  | some a, some b => decide (a ≤ b)

/-- The default ordering relation on BookInstance rows: compare on the
`due_back` field, per `ordering = ["due_back"]`. -/
def dueOrder (x y : BookInstance) : Prop :=
  dueBackLE x.due_back y.due_back = true

instance : DecidableRel dueOrder := fun _ _ => instDecidableEqBool _ _

instance : IsTotal BookInstance dueOrder where
  total x y := by
    unfold dueOrder
    cases hx : x.due_back with
    | none => exact Or.inl rfl
    | some a =>
      cases hy : y.due_back with
      | none => exact Or.inr rfl
      | some b =>
        rcases Nat.le_total a b with h | h
        · exact Or.inl (by simp [dueBackLE, h])
        · exact Or.inr (by simp [dueBackLE, h])

instance : IsTrans BookInstance dueOrder where
  trans x y z hxy hyz := by
    unfold dueOrder at *
    cases hx : x.due_back with
    | none => simp [dueBackLE]
    | some a =>
      cases hy : y.due_back with
      | none => simp [hx, hy, dueBackLE] at hxy
      | some b =>
        cases hz : z.due_back with
        | none => simp [hy, hz, dueBackLE] at hyz
        | some c =>
          simp only [hx, hy, hz, dueBackLE, decide_eq_true_eq] at *
          exact Nat.le_trans hxy hyz

/-- The record list a default (unqualified) query returns: the stored rows
sorted by the declared default ordering.  The datastore's ORDER BY is embedded
as a sort under `dueOrder`. -/
def defaultQuery (rows : List BookInstance) : List BookInstance :=
  List.insertionSort dueOrder rows

/-! ### URL reversal

`get_absolute_url` calls the framework's `reverse` on a route name; the routes
themselves live outside this file ("no routes are defined in this file"). -/

/-- One piece of a route template: a literal path segment, or a placeholder
consuming the next positional argument. -/
inductive UrlPart where
  | lit : String → UrlPart
  | arg : UrlPart
deriving DecidableEq

/-- Substitute positional arguments into a route template, left to right.
Fails (as the framework's reversal does) when the argument count does not
match the placeholder count. -/
def substitute : List UrlPart → List String → Option String
  | [], [] => some ""
  | [], _ :: _ => none
  | .lit s :: rest, args => (substitute rest args).map (fun t => s ++ t)
  | .arg :: rest, a :: args => (substitute rest args).map (fun t => a ++ t)
  | .arg :: _, [] => none

/-- Modelled from the spec: the framework's URL reverser is not part of src/;
per the spec the named route templates are "consumed via identifier
substitution".  `routes` is the externally defined route table. -/
def reverse (routes : String → Option (List UrlPart)) (name : String)
    (args : List String) : Option String :=
  (routes name).bind (fun t => substitute t args)

/-- `Book.get_absolute_url`: `return reverse('book-detail', args=[str(self.id)])`. -/
def Book.get_absolute_url (routes : String → Option (List UrlPart)) (b : Book) :
    Option String :=
  reverse routes "book-detail" [toString b.id]

/-- `Author.get_absolute_url`: `return reverse('author-detail', args=[str(self.id)])`. -/
def Author.get_absolute_url (routes : String → Option (List UrlPart)) (a : Author) :
    Option String :=
  reverse routes "author-detail" [toString a.id]

/-! ### Deletion and the SET_NULL cascade -/

/-- The persisted state of the catalog application: one table per entity. -/
structure Database where
  genres : List Genre
  authors : List Author
  books : List Book
  instances : List BookInstance
  languages : List Language

/-- Modelled from the spec: row deletion runs in the framework's persistence
layer, not in src/; the declaration `author = ForeignKey('Author',
on_delete=models.SET_NULL, null=True)` directs it, on deleting an Author row,
to keep every referencing Book and store NULL in its author column. -/
def deleteAuthor (db : Database) (aid : Nat) : Database :=
  { db with
    authors := db.authors.filter (fun a => a.id ≠ aid),
    books := db.books.map (fun b =>
      if b.author = some aid then { b with author := none } else b) }

/-- Modelled from the spec: as `deleteAuthor`, for `book = ForeignKey('Book',
on_delete=models.SET_NULL, null=True)` on BookInstance. -/
def deleteBook (db : Database) (bid : Nat) : Database :=
  { db with
    books := db.books.filter (fun b => b.id ≠ bid),
    instances := db.instances.map (fun bi =>
      if bi.book = some bid then { bi with book := none } else bi) }

/-! ### Helper lemmas -/

/-- Evaluation of the author format string on arbitrary arguments. -/
theorem pyFormat_comma (x y : String) : pyFormat "{0}, {1}" [x, y] = x ++ ", " ++ y := by
  apply String.ext
  simp only [pyFormat]
  show formatCore [x, y] ['{', '0', '}', ',', ' ', '{', '1', '}'] = _
  simp [formatCore, String.data_append]

/-- Evaluation of the book-instance format string on arbitrary arguments. -/
theorem pyFormat_paren (x y : String) :
    pyFormat "{0} ({1})" [x, y] = x ++ " (" ++ y ++ ")" := by
  apply String.ext
  simp only [pyFormat]
  show formatCore [x, y] ['{', '0', '}', ' ', '(', '{', '1', '}', ')'] = _
  simp [formatCore, String.data_append]

/-! ### Concrete records used by counterexamples and witnesses -/

/-- A concrete BookInstance row whose book reference is NULL; the schema
permits it (`book` declares `null=True`) and it passes field validation. -/
def orphanInstance : BookInstance :=
  { id := "3f2504e0-4f89-11d3-9a0c-0305e82c3301", book := none,
    imprint := "Unknown imprint", due_back := none, status := "m" }

/-- A concrete Book row. -/
def demoBook : Book :=
  { id := 7, title := "Dune", author := some 3, summary := "A desert planet.",
    isbn := "9780441013593", genre := [1] }

/-- A concrete Author row. -/
def demoAuthor : Author :=
  { id := 3, first_name := "Frank", last_name := "Herbert",
    date_of_birth := some 7000, date_of_death := some 30000 }

/-- A concrete BookInstance row referencing `demoBook`. -/
def demoInstance : BookInstance :=
  { id := "c7a8f9e2-0001-4000-8000-000000000001", book := some 7,
    imprint := "Ace Books", due_back := some 100, status := "a" }

/-- A foreign-key resolver carrying exactly `demoBook`. -/
def demoResolve : Nat → Option Book :=
  fun k => if k = 7 then some demoBook else none

/-- A concrete database state holding the demo rows. -/
def demoDb : Database :=
  { genres := [{ id := 1, name := "Science Fiction" }],
    authors := [demoAuthor], books := [demoBook],
    instances := [demoInstance], languages := [] }

/-! ### Claims -/

/-- C1 counterexample: the claim quantifies over every BookInstance record,
but the schema permits a NULL book reference; on such a record (field-valid,
book NULL) the string representation is undefined — `__str__` dereferences
`self.book.title` and fails — rather than being equal to any string of the
claimed form. -/
theorem bookinstance_str_cex :
    orphanInstance.fieldsValid = true ∧ orphanInstance.book = none ∧
    BookInstance.strRepr (fun _ => none) orphanInstance = none := by
  exact ⟨by decide, rfl, rfl⟩

/-- C1 (amended): for every BookInstance whose book reference is non-null
(and resolves, as foreign-key integrity guarantees), the string
representation equals "{id} ({book.title})": the id, a space, and the title
of the associated book in parentheses. -/
theorem bookinstance_str_eq (resolve : Nat → Option Book) (bi : BookInstance)
    (k : Nat) (b : Book) (hk : bi.book = some k) (hb : resolve k = some b) :
    BookInstance.strRepr resolve bi = some (bi.id ++ " (" ++ b.title ++ ")") := by
  unfold BookInstance.strRepr
  rw [hk]
  simp [Option.bind, hb, pyFormat_paren]

/-- C1 witness: the amended statement evaluated on a concrete row. -/
theorem bookinstance_str_eq_witness :
    demoInstance.book = some 7 ∧ demoResolve 7 = some demoBook ∧
    BookInstance.strRepr demoResolve demoInstance =
      some (demoInstance.id ++ " (" ++ demoBook.title ++ ")") :=
  ⟨rfl, rfl, bookinstance_str_eq demoResolve demoInstance 7 demoBook rfl rfl⟩

/-- C3: for every Author record, the string representation equals the
last_name field, followed by a comma and a space, followed by the first_name
field. -/
theorem author_str_eq (a : Author) :
    a.str = a.last_name ++ ", " ++ a.first_name :=
  pyFormat_comma a.last_name a.first_name

/-- C8: there exists a schema-valid BookInstance record — one whose book
reference is NULL, which the schema permits — on which the
string-representation operation is undefined: it returns no string, whatever
the foreign-key resolver. -/
theorem bookinstance_str_undefined_on_null_book :
    ∃ bi : BookInstance, bi.fieldsValid = true ∧ bi.book = none ∧
      ∀ resolve : Nat → Option Book, BookInstance.strRepr resolve bi = none :=
  ⟨orphanInstance, by decide, rfl, fun _ => rfl⟩

/-- C9: a newly created BookInstance for which no status is supplied takes
the declared field default 'm' (Maintenance). -/
theorem bookinstance_default_status (id : String) (book : Option Nat)
    (imprint : String) (due_back : Option Nat) :
    (BookInstance.create id book imprint due_back none).status = "m" :=
  rfl

/-- C2 counterexample: the status field declares `blank=True`, so the empty
string passes field validation although it is outside {m, o, a, r}. -/
theorem status_blank_cex :
    statusValid "" = true ∧ "" ∉ ["m", "o", "a", "r"] := by decide

/-- C2 (amended): every status value the field validation admits is either
blank (the empty string, permitted by `blank=True`) or one of the four
one-character codes 'm', 'o', 'a', 'r'. -/
theorem status_choices (s : String) (h : statusValid s = true) :
    s = "" ∨ s ∈ ["m", "o", "a", "r"] := by
  by_cases hs : s = ""
  · exact Or.inl hs
  · right
    unfold statusValid charFieldValid LOAN_STATUS at h
    simp only [if_neg hs, List.any_cons, List.any_nil, Bool.and_eq_true,
      Bool.or_eq_true, beq_iff_eq] at h
    rcases h with ⟨h, -⟩
    simp only [List.mem_cons, List.not_mem_nil, or_false]
    tauto

/-- C2 witness: a concrete admissible status lands in the amended set. -/
theorem status_choices_witness :
    statusValid "o" = true ∧ ("o" = "" ∨ "o" ∈ ["m", "o", "a", "r"]) :=
  ⟨by decide, status_choices "o" (by decide)⟩

/-- C4: a default (unqualified) query returns exactly the stored BookInstance
rows, arranged so that consecutive and in fact all pairs are non-decreasing in
the `due_back` ordering (ascending, NULLs first), per
`Meta.ordering = ["due_back"]`. -/
theorem default_ordering_sorted (rows : List BookInstance) :
    (defaultQuery rows).Perm rows ∧ List.Sorted dueOrder (defaultQuery rows) :=
  ⟨List.perm_insertionSort dueOrder rows, List.sorted_insertionSort dueOrder rows⟩

/-- C5: whatever templates the external route table assigns to the names
"book-detail" and "author-detail", `get_absolute_url` returns the path
obtained by substituting the string form of the record's id into the named
template. -/
theorem get_absolute_url_spec (routes : String → Option (List UrlPart))
    (b : Book) (a : Author) (tb ta : List UrlPart)
    (hb : routes "book-detail" = some tb)
    (ha : routes "author-detail" = some ta) :
    Book.get_absolute_url routes b = substitute tb [toString b.id] ∧
    Author.get_absolute_url routes a = substitute ta [toString a.id] := by
  constructor
  · unfold Book.get_absolute_url reverse
    rw [hb, Option.some_bind]
  · unfold Author.get_absolute_url reverse
    rw [ha, Option.some_bind]

/-- A concrete route table for the two names the source reverses. -/
def demoRoutes : String → Option (List UrlPart) := fun n =>
  if n = "book-detail" then some [UrlPart.lit "/catalog/book/", UrlPart.arg]
  else if n = "author-detail" then
    some [UrlPart.lit "/catalog/author/", UrlPart.arg]
  else none

/-- C5 witness: the statement evaluated on a concrete route table. -/
theorem get_absolute_url_spec_witness :
    demoRoutes "book-detail" = some [UrlPart.lit "/catalog/book/", UrlPart.arg] ∧
    Book.get_absolute_url demoRoutes demoBook =
      substitute [UrlPart.lit "/catalog/book/", UrlPart.arg] [toString demoBook.id] ∧
    Author.get_absolute_url demoRoutes demoAuthor =
      substitute [UrlPart.lit "/catalog/author/", UrlPart.arg] [toString demoAuthor.id] := by
  refine ⟨by decide, ?_⟩
  exact get_absolute_url_spec demoRoutes demoBook demoAuthor _ _ (by decide) (by decide)

/-- C6 counterexample: `max_length=13` is an upper bound, not a fixed length;
a ten-character ISBN-10 string passes field validation. -/
theorem isbn_length_cex :
    isbnValid "0306406152" = true ∧ ¬("0306406152".length = 13) := by decide

/-- C6 (amended): every isbn value the field validation admits is a non-empty
string of at most 13 characters. -/
theorem isbn_length_bound (s : String) (h : isbnValid s = true) :
    s ≠ "" ∧ s.length ≤ 13 := by
  unfold isbnValid charFieldValid at h
  by_cases hs : s = ""
  · rw [if_pos hs] at h
    exact absurd h (by decide)
  · rw [if_neg hs] at h
    simp only [Bool.and_eq_true, decide_eq_true_eq] at h
    exact ⟨hs, h.2⟩

/-- C6 witness: a concrete 13-character ISBN is admitted and bounded. -/
theorem isbn_length_bound_witness :
    isbnValid "9780441013593" = true ∧
    ("9780441013593" ≠ "" ∧ "9780441013593".length ≤ 13) :=
  ⟨by decide, isbn_length_bound "9780441013593" (by decide)⟩

/-- C7: every Genre name the field validation admits is non-empty and of
length at most 200; `blank` is left at its default `False` and
`max_length=200` bounds the length. -/
theorem genre_name_bound (s : String) (h : genreNameValid s = true) :
    s ≠ "" ∧ s.length ≤ 200 := by
  unfold genreNameValid charFieldValid at h
  by_cases hs : s = ""
  · rw [if_pos hs] at h
    exact absurd h (by decide)
  · rw [if_neg hs] at h
    simp only [Bool.and_eq_true, decide_eq_true_eq] at h
    exact ⟨hs, h.2⟩

/-- C7 witness: a concrete genre name is admitted and bounded. -/
theorem genre_name_bound_witness :
    genreNameValid "Fantasy" = true ∧
    ("Fantasy" ≠ "" ∧ "Fantasy".length ≤ 200) :=
  ⟨by decide, genre_name_bound "Fantasy" (by decide)⟩

/-- C10: deleting an Author deletes no Book — the book table keeps its
length, and every stored Book survives with all fields unchanged except that
an author reference to the deleted row becomes NULL — and BookInstance rows
are untouched; symmetrically, deleting a Book deletes no BookInstance — each
survives with only a book reference to the deleted row set to NULL — and
Author rows are untouched. -/
theorem on_delete_set_null (db : Database) (aid bid : Nat) :
    ((deleteAuthor db aid).books.length = db.books.length ∧
     (deleteAuthor db aid).instances = db.instances ∧
     ∀ b : Book, b ∈ db.books →
       { b with author := if b.author = some aid then none else b.author } ∈
         (deleteAuthor db aid).books) ∧
    ((deleteBook db bid).instances.length = db.instances.length ∧
     (deleteBook db bid).authors = db.authors ∧
     ∀ bi : BookInstance, bi ∈ db.instances →
       { bi with book := if bi.book = some bid then none else bi.book } ∈
         (deleteBook db bid).instances) := by
  refine ⟨⟨by simp [deleteAuthor], rfl, ?_⟩, by simp [deleteBook], rfl, ?_⟩
  · intro b hb
    have hf : ({ b with author := if b.author = some aid then none else b.author })
        = (fun x : Book =>
            if x.author = some aid then { x with author := none } else x) b := by
      by_cases h : b.author = some aid <;> simp [h]
    rw [hf]
    exact List.mem_map_of_mem _ hb
  · intro bi hbi
    have hf : ({ bi with book := if bi.book = some bid then none else bi.book })
        = (fun x : BookInstance =>
            if x.book = some bid then { x with book := none } else x) bi := by
      by_cases h : bi.book = some bid <;> simp [h]
    rw [hf]
    exact List.mem_map_of_mem _ hbi

/-- C10 witness: the statement evaluated on a concrete database. -/
theorem on_delete_set_null_witness :
    demoBook ∈ demoDb.books ∧ demoInstance ∈ demoDb.instances ∧
    ({ demoBook with author := if demoBook.author = some 3 then none
        else demoBook.author } ∈ (deleteAuthor demoDb 3).books) ∧
    ({ demoInstance with book := if demoInstance.book = some 7 then none
        else demoInstance.book } ∈ (deleteBook demoDb 7).instances) :=
  ⟨List.mem_singleton.mpr rfl, List.mem_singleton.mpr rfl,
   (on_delete_set_null demoDb 3 7).1.2.2 demoBook (List.mem_singleton.mpr rfl),
   (on_delete_set_null demoDb 3 7).2.2.2 demoInstance (List.mem_singleton.mpr rfl)⟩

end Catalog
